import Mathlib

/-!
Verification of the DCGAN training orchestration core
(`notebooks/02/dcgan/dcgan.py`): checkpoint store (folder resolution,
latest-checkpoint scan, config-gated resume decision) and training loop
bookkeeping (global step, loss aggregation, per-batch update order,
gradient isolation via detach).

Machine conventions of the embedding:
* Python dicts of hyperparameters become association lists
  `List (String × String)` with first-match lookup; dict equality is
  key-wise value equality over the union of key sets.
* Serialized tensors / optimizer state dicts are opaque blobs of an
  arbitrary type `α`: the orchestration only copies them around.
* Python exceptions (`ValueError` from `int(...)`, `ZeroDivisionError`,
  `FileExistsError`) become `Except String`.
* The neural networks and binary cross-entropy are the external
  differentiable collaborators; they are modelled as abstract
  differentiable scalar functions (a value together with its partial
  derivatives), and the per-batch computation graph of `train_epoch`
  is a small expression language with a `detach` node whose gradient
  is zero, transcribed from lines 216-231 of the source.
-/

namespace DCGAN

/-! ### Configuration dictionaries (Python `dict` model) -/

/-- A hyperparameter configuration: an association list modelling a Python
dict (keys unique, first match wins on lookup). -/
abbrev Cfg : Type := List (String × String)

/-- Python `d.keys()`. -/
def cfgKeys (c : Cfg) : List String := c.map (·.1)

/-- Python `d.get(k)`: `some v` when the key is present, `none` otherwise. -/
def cfgGet (c : Cfg) (k : String) : Option String :=
  (c.find? (fun p => p.1 == k)).map (·.2)

/-- The key union `set(checkpoint_config.keys()).union(current_config.keys())`
of line 172, deduplicated. -/
def unionKeys (c₁ c₂ : Cfg) : List String :=
  (cfgKeys c₁ ++ cfgKeys c₂).dedup

/-- The keys reported by the mismatch loop of lines 172-174: keys of the
union on which the two configs disagree. -/
def diffKeys (c₁ c₂ : Cfg) : List String :=
  (unionKeys c₁ c₂).filter (fun k => cfgGet c₁ k ≠ cfgGet c₂ k)

/-- Python dict equality `checkpoint_config == current_config`: the two
dicts agree on every key of either; equivalently, no differing key. -/
def dictEq (c₁ c₂ : Cfg) : Bool := (diffKeys c₁ c₂).isEmpty

/-! ### Checkpoint state and the resume decision (`load_checkpoint`, lines 156-189) -/

/-- The `state` dict written by `save_checkpoint` (lines 132-141).
`α` is the opaque type of serialized model / optimizer state dicts. -/
structure CkptState (α : Type) where
  epoch : Nat
  global_step : Nat
  generator_state_dict : α
  discriminator_state_dict : α
  optimizer_g_state_dict : α
  optimizer_d_state_dict : α
  wandb_run_id : Option String
  config : Cfg

/-- The four mutable modules that `load_checkpoint` may overwrite via
`load_state_dict` (lines 178-181). -/
structure Models (α : Type) where
  generator : α
  discriminator : α
  optimizer_g : α
  optimizer_d : α

/-- Result of the resume decision: the (possibly updated) modules, the
`(start_epoch, global_step, wandb_run_id)` triple returned by
`load_checkpoint`, and the list of differing keys logged by the
mismatch warnings (empty when no mismatch was reported). -/
structure LoadResult (α : Type) where
  models : Models α
  start_epoch : Nat
  global_step : Nat
  wandb_run_id : Option String
  reported_diff : List String

/-- Lines 168-189 of `load_checkpoint`: given the deserialized checkpoint
`state` and the current config, either reject on config mismatch
(report every differing key, leave the modules untouched, return
`(0, 0, None)`) or load all four state dicts and return
`(epoch + 1, global_step, wandb_run_id)`. -/
def load_checkpoint_state {α : Type} (st : CkptState α) (current_config : Cfg)
    (m : Models α) : LoadResult α :=
  if dictEq st.config current_config then
    { models := { generator := st.generator_state_dict
                  discriminator := st.discriminator_state_dict
                  optimizer_g := st.optimizer_g_state_dict
                  optimizer_d := st.optimizer_d_state_dict }
      start_epoch := st.epoch + 1
      global_step := st.global_step
      wandb_run_id := st.wandb_run_id
      reported_diff := [] }
  else
    { models := m
      start_epoch := 0
      global_step := 0
      wandb_run_id := none
      reported_diff := diffKeys st.config current_config }

/-! ### Filename scheme and the latest-checkpoint scan -/

/-- Split a character list at every occurrence of `sep`, keeping empty
fields, as Python `str.split(sep)` does on a nonempty separator. -/
def splitOnChar (sep : Char) : List Char → List (List Char)
  | [] => [[]]
  | c :: cs =>
    if c = sep then [] :: splitOnChar sep cs
    else
      match splitOnChar sep cs with
      | [] => [[c]]
      | f :: fs => (c :: f) :: fs

/-- Python `s.split(sep)` for a one-character separator. -/
def pySplit (sep : Char) (s : String) : List String :=
  (splitOnChar sep s.data).map String.mk

/-- Python `s.startswith(pre)` on character lists. -/
def beginsWith : List Char → List Char → Bool
  | _, [] => true
  | [], _ :: _ => false
  | c :: cs, p :: ps => c == p && beginsWith cs ps

/-- Line 158: `f.startswith("ckpt_epoch_") and f.endswith(".pth")`. -/
def isCkptFile (f : String) : Bool :=
  beginsWith f.data "ckpt_epoch_".data &&
    beginsWith f.data.reverse ".pth".data.reverse

/-- Digits to the natural number they denote (base 10). -/
def digitsToNat (cs : List Char) : Nat :=
  cs.foldl (fun a c => a * 10 + (c.toNat - 48)) 0

/-- Python `int(s)` restricted to the ASCII shapes that occur here: an
optional sign followed by a nonempty digit string; anything else raises
`ValueError`. -/
def pyInt (s : List Char) : Except String Int :=
  let (sign, ds) : Int × List Char :=
    match s with
    | '-' :: rest => (-1, rest)
    | '+' :: rest => (1, rest)
    | cs => (1, cs)
  if ds.isEmpty then .error ("invalid literal for int: " ++ String.mk s)
  else if ds.all (·.isDigit) then .ok (sign * (digitsToNat ds : Int))
  else .error ("invalid literal for int: " ++ String.mk s)

/-- The sort key of line 163: `int(f.split("_")[-1].split(".")[0])` —
note it parses the LAST underscore-separated field of the filename
(the `HHMMSS` half of the timestamp for names written by
`save_checkpoint`), not the epoch field. -/
def ckptKey (f : String) : Except String Int :=
  pyInt ((splitOnChar '.' ((splitOnChar '_' f.data).getLastD [])).headD [])

/-- Python `max(files, key=...)` continued from a current best: `max`
evaluates the key of each element in order (raising on the first
malformed one) and keeps the first element attaining the maximum. -/
def pyMaxFrom (best : String) (bestKey : Int) : List String → Except String String
  | [] => .ok best
  | f :: fs =>
    match ckptKey f with
    | .error e => .error e
    | .ok k => if bestKey < k then pyMaxFrom f k fs else pyMaxFrom best bestKey fs

/-- Line 163: `max(ckpt_files, key=lambda f: int(f.split("_")[-1].split(".")[0]))`. -/
def pyMaxCkpt : List String → Except String String
  | [] => .error "max() arg is an empty sequence"
  | f :: fs =>
    match ckptKey f with
    | .error e => .error e
    | .ok k => pyMaxFrom f k fs

/-- Lines 158-163 of `load_checkpoint`: filter the folder listing to
checkpoint files; `ok none` means "no checkpoint files found, start
fresh"; otherwise the selected latest filename, or the uncaught
`ValueError` of a malformed name. -/
def select_latest (files : List String) : Except String (Option String) :=
  let ckpt_files := files.filter isCkptFile
  if ckpt_files.isEmpty then .ok none
  else (pyMaxCkpt ckpt_files).map some

/-- The filename written by `save_checkpoint` (line 130):
`ckpt_epoch_{epoch}_{timestamp}.pth` with
`timestamp = now().strftime("%Y%m%d_%H%M%S")`. -/
def ckptFilename (epoch : Nat) (timestamp : String) : String :=
  "ckpt_epoch_" ++ toString epoch ++ "_" ++ timestamp ++ ".pth"

/-! ### The per-batch computation graph (`train_epoch`, lines 213-231)

The networks and the loss are the external differentiable collaborators;
they enter the embedding as abstract scalar functions carrying their own
derivatives. The computation graph built by lines 217-229 is transcribed
into a small expression language whose `detach` node evaluates to the
tensor captured before the generator update and contributes zero
gradient — exactly the semantics of `gen_imgs.detach()`. -/

/-- A differentiable scalar function of one argument: its value and its
derivative. Models `F.binary_cross_entropy(·, target)` for a fixed
target batch. -/
structure DiffFun1 where
  val : ℚ → ℚ
  deriv : ℚ → ℚ

/-- A differentiable scalar function of a parameter block and an input:
its value and both partial derivatives. Models the generator and the
discriminator networks (parameters collapsed to one scalar block). -/
structure DiffFun2 where
  val : ℚ → ℚ → ℚ
  dParam : ℚ → ℚ → ℚ
  dInput : ℚ → ℚ → ℚ

/-- The external differentiable collaborators of `train_epoch`:
generator `G`, discriminator `D`, and binary cross-entropy against the
all-ones (`bce1`, the `valid` target of line 210) and all-zeros
(`bce0`, the `fake` target of line 211) batches. -/
structure Env where
  G : DiffFun2
  D : DiffFun2
  bce1 : DiffFun1
  bce0 : DiffFun1

/-- One batch drawn from the dataloader: the real images `imgs`
(line 205), the latent noise sampled at line 217, and the batch size.
The batch size only shapes the tensors in the source; it never enters
the step bookkeeping, which the `global_step` theorem quantifies over. -/
structure Batch where
  imgs : ℚ
  noise : ℚ
  size : ℕ
  deriving DecidableEq

/-- The computation graph of one batch of `train_epoch`. -/
inductive Expr
  | imgsE
  | noiseE
  | genApply (e : Expr)
  | discApply (e : Expr)
  | bceOnes (e : Expr)
  | bceZeros (e : Expr)
  | avg2 (a b : Expr)
  | detach (e : Expr)

/-- Forward evaluation. `g0` is the generator parameter at which
`gen_imgs` was produced (line 218); a `detach`-ed subgraph is the stored
tensor, so it evaluates at `g0` regardless of the current parameter. -/
def evalE (env : Env) (g0 g d : ℚ) (b : Batch) : Expr → ℚ
  | .imgsE => b.imgs
  | .noiseE => b.noise
  | .genApply e => env.G.val g (evalE env g0 g d b e)
  | .discApply e => env.D.val d (evalE env g0 g d b e)
  | .bceOnes e => env.bce1.val (evalE env g0 g d b e)
  | .bceZeros e => env.bce0.val (evalE env g0 g d b e)
  | .avg2 a b' => (evalE env g0 g d b a + evalE env g0 g d b b') / 2
  | .detach e => evalE env g0 g0 d b e

/-- Reverse-mode derivative with respect to the generator parameter.
`detach` contributes zero: no gradient flows through a detached value. -/
def gradG (env : Env) (g0 g d : ℚ) (b : Batch) : Expr → ℚ
  | .imgsE => 0
  | .noiseE => 0
  | .genApply e =>
      env.G.dParam g (evalE env g0 g d b e) +
        env.G.dInput g (evalE env g0 g d b e) * gradG env g0 g d b e
  | .discApply e => env.D.dInput d (evalE env g0 g d b e) * gradG env g0 g d b e
  | .bceOnes e => env.bce1.deriv (evalE env g0 g d b e) * gradG env g0 g d b e
  | .bceZeros e => env.bce0.deriv (evalE env g0 g d b e) * gradG env g0 g d b e
  | .avg2 a b' => (gradG env g0 g d b a + gradG env g0 g d b b') / 2
  | .detach _ => 0

/-- Reverse-mode derivative with respect to the discriminator parameter. -/
def gradD (env : Env) (g0 g d : ℚ) (b : Batch) : Expr → ℚ
  | .imgsE => 0
  | .noiseE => 0
  | .genApply e => env.G.dInput g (evalE env g0 g d b e) * gradD env g0 g d b e
  | .discApply e =>
      env.D.dParam d (evalE env g0 g d b e) +
        env.D.dInput d (evalE env g0 g d b e) * gradD env g0 g d b e
  | .bceOnes e => env.bce1.deriv (evalE env g0 g d b e) * gradD env g0 g d b e
  | .bceZeros e => env.bce0.deriv (evalE env g0 g d b e) * gradD env g0 g d b e
  | .avg2 a b' => (gradD env g0 g d b a + gradD env g0 g d b b') / 2
  | .detach _ => 0

/-- Line 218: `gen_imgs = generator(noise)`. -/
def gen_imgs : Expr := .genApply .noiseE

/-- Line 219: `g_loss = F.binary_cross_entropy(discriminator(gen_imgs), valid)`. -/
def g_loss : Expr := .bceOnes (.discApply gen_imgs)

/-- Line 227: `real_loss = F.binary_cross_entropy(discriminator(imgs), valid)`. -/
def real_loss : Expr := .bceOnes (.discApply .imgsE)

/-- Line 228: `fake_loss = F.binary_cross_entropy(discriminator(gen_imgs.detach()), fake)`. -/
def fake_loss : Expr := .bceZeros (.discApply (.detach gen_imgs))

/-- Line 229: `d_loss = (real_loss + fake_loss) / 2`. -/
def d_loss : Expr := .avg2 real_loss fake_loss

/-- The two trainable parameter blocks. -/
structure TrainState where
  g : ℚ
  d : ℚ
  deriving DecidableEq

/-- Lines 216-221: zero the generator gradients, build `g_loss`,
backpropagate, and let `optimizer_g` (an external update rule `optG`
bound to the generator parameters only, line 311) take its step.
Returns the new state and `g_loss.item()`. -/
def generator_phase (env : Env) (optG : ℚ → ℚ → ℚ) (b : Batch)
    (s : TrainState) : TrainState × ℚ :=
  ({ s with g := optG s.g (gradG env s.g s.g s.d b g_loss) },
    evalE env s.g s.g s.d b g_loss)

/-- Lines 226-231: zero the discriminator gradients, build `d_loss`
from the real batch and the detached `gen_imgs` (captured at generator
parameter `g0`), backpropagate, and let `optimizer_d` (bound to the
discriminator parameters only, line 312) take its step. Returns the new
state and `d_loss.item()`. -/
def discriminator_phase (env : Env) (optD : ℚ → ℚ → ℚ) (b : Batch)
    (g0 : ℚ) (s : TrainState) : TrainState × ℚ :=
  ({ s with d := optD s.d (gradD env g0 s.g s.d b d_loss) },
    evalE env g0 s.g s.d b d_loss)

/-- The loop body of lines 204-246 for one batch: generator phase first,
then discriminator phase on the tensor captured before the generator
step. -/
def batch_update (env : Env) (optG optD : ℚ → ℚ → ℚ) (b : Batch)
    (s : TrainState) : TrainState × ℚ × ℚ :=
  let (s₁, gl) := generator_phase env optG b s
  let (s₂, dl) := discriminator_phase env optD b s.g s₁
  (s₂, gl, dl)

/-- The running accumulators of `train_epoch` (lines 199-201 and 246). -/
structure EpochAcc where
  s : TrainState
  total_g_loss : ℚ
  total_d_loss : ℚ
  n_batches : ℕ
  global_step : ℕ

/-- One iteration of the batch loop (lines 204-246): run the per-batch
update, add both `.item()` losses to the running totals (lines 233-234),
bump `n_batches` (line 207) and `global_step` by exactly 1 (line 246). -/
def epoch_step (env : Env) (optG optD : ℚ → ℚ → ℚ) (a : EpochAcc)
    (b : Batch) : EpochAcc :=
  let (s', gl, dl) := batch_update env optG optD b a.s
  { s := s'
    total_g_loss := a.total_g_loss + gl
    total_d_loss := a.total_d_loss + dl
    n_batches := a.n_batches + 1
    global_step := a.global_step + 1 }

/-- Function `train_epoch` (lines 195-258): fold the per-batch update over the
dataloader, accumulating loss totals, `n_batches` and `global_step`
(incremented by exactly 1 per batch, line 246); then divide the totals
by `n_batches` — a Python `ZeroDivisionError` when no batch was
yielded. Returns the final state, the two epoch averages, and the
updated `global_step` (line 258). -/
def train_epoch (env : Env) (optG optD : ℚ → ℚ → ℚ) (s : TrainState)
    (global_step : ℕ) (batches : List Batch) :
    Except String (TrainState × ℚ × ℚ × ℕ) :=
  let acc := batches.foldl (epoch_step env optG optD)
    { s := s, total_g_loss := 0, total_d_loss := 0, n_batches := 0,
      global_step := global_step }
  if acc.n_batches = 0 then .error "ZeroDivisionError: float division by zero"
  else .ok (acc.s, acc.total_g_loss / acc.n_batches,
    acc.total_d_loss / acc.n_batches, acc.global_step)

/-- The epoch loop of `main` (lines 334-335): thread the state and
`global_step` returned by `train_epoch` through successive epochs. -/
def runEpochs (env : Env) (optG optD : ℚ → ℚ → ℚ) :
    TrainState → ℕ → List (List Batch) → Except String (TrainState × ℕ)
  | s, gs, [] => .ok (s, gs)
  | s, gs, e :: es =>
    match train_epoch env optG optD s gs e with
    | .error m => .error m
    | .ok (s', _, _, gs') => runEpochs env optG optD s' gs' es

/-! ### Run fingerprint and checkpoint folder resolution
(`generate_checkpoint_folder`, lines 103-122)

The five fingerprint hyperparameters enter the f-strings of lines 105
and 110 through Python `str()`; the embedding carries them by those
renderings (character lists). `hashlib.sha256(...).hexdigest()[:8]` is
an external deterministic digest, passed in as an arbitrary function
`h` — every theorem below holds for all `h`, in particular for the real
truncated SHA-256. -/

/-- The five hyperparameters that define a distinct experiment, by
their `str()` renderings, plus the base directory
(`config.get("checkpoint_dir", "checkpoints")`, line 108). -/
structure ConfigKeys where
  lr : List Char
  batch_size : List Char
  latent_dim : List Char
  ngf : List Char
  ndf : List Char
  checkpoint_dir : List Char
  deriving DecidableEq

/-- Line 105: `key_params = f"{lr}_{batch_size}_{latent_dim}_{ngf}_{ndf}"`. -/
def key_params (c : ConfigKeys) : List Char :=
  c.lr ++ '_' :: c.batch_size ++ '_' :: c.latent_dim ++ '_' :: c.ngf ++
    '_' :: c.ndf

/-- Line 110:
`folder_name = f"dcgan_lr{lr}_bs{bs}_latent{ld}_ngf{ngf}_ndf{ndf}_{config_hash}"`,
with `config_hash = h(key_params)`. -/
def folder_name (h : List Char → List Char) (c : ConfigKeys) : List Char :=
  "dcgan_lr".data ++ c.lr ++ "_bs".data ++ c.batch_size ++
    "_latent".data ++ c.latent_dim ++ "_ngf".data ++ c.ngf ++
    "_ndf".data ++ c.ndf ++ '_' :: h (key_params c)

/-- Line 111: `folder_path = os.path.join(base_path, folder_name)`. -/
def folder_path (h : List Char → List Char) (c : ConfigKeys) : List Char :=
  c.checkpoint_dir ++ '/' :: folder_name h c

/-- The two configs agree on the five fingerprint hyperparameters. -/
def fpEq (c₁ c₂ : ConfigKeys) : Prop :=
  c₁.lr = c₂.lr ∧ c₁.batch_size = c₂.batch_size ∧
    c₁.latent_dim = c₂.latent_dim ∧ c₁.ngf = c₂.ngf ∧ c₁.ndf = c₂.ndf

instance (c₁ c₂ : ConfigKeys) : Decidable (fpEq c₁ c₂) := by
  unfold fpEq; infer_instance

/-- The renderings contain no underscore — true of Python `str()` on
the numbers these keys hold. -/
def fpWF (c : ConfigKeys) : Prop :=
  '_' ∉ c.lr ∧ '_' ∉ c.batch_size ∧ '_' ∉ c.latent_dim ∧ '_' ∉ c.ngf ∧
    '_' ∉ c.ndf

instance (c : ConfigKeys) : Decidable (fpWF c) := by
  unfold fpWF; infer_instance

/-- The directory structure: the set of directories that exist. -/
abbrev FS : Type := List (List Char)

/-- Python `os.makedirs(path, exist_ok=ok)`: raises `FileExistsError` on a
pre-existing directory unless `exist_ok` is set. -/
def makedirs (path : List Char) (exist_ok : Bool) (fs : FS) :
    Except String FS :=
  if path ∈ fs then
    if exist_ok then .ok fs else .error "FileExistsError"
  else .ok (path :: fs)

/-- Function `generate_checkpoint_folder` (lines 103-122, filesystem part):
create the base directory and the fingerprint folder, both with
`exist_ok=True` (lines 109 and 112), and return the folder path
(line 122). -/
def generate_checkpoint_folder (h : List Char → List Char)
    (c : ConfigKeys) (fs : FS) : Except String (FS × List Char) :=
  match makedirs c.checkpoint_dir true fs with
  | .error e => .error e
  | .ok fs₁ =>
    match makedirs (folder_path h c) true fs₁ with
    | .error e => .error e
    | .ok fs₂ => .ok (fs₂, folder_path h c)

/-- The filesystem produced by `generate_checkpoint_folder`: the base
directory and then the fingerprint folder, each added when absent. -/
def gcfFS (h : List Char → List Char) (c : ConfigKeys) (fs : FS) : FS :=
  let fs₁ := if c.checkpoint_dir ∈ fs then fs else c.checkpoint_dir :: fs
  if folder_path h c ∈ fs₁ then fs₁ else folder_path h c :: fs₁

/-- A concrete environment used by witness instances. -/
def envW : Env :=
  { G := ⟨fun g x => g * x, fun _ x => x, fun g _ => g⟩
    D := ⟨fun d x => d + x, fun _ _ => 1, fun _ _ => 1⟩
    bce1 := ⟨fun x => 1 - x, fun _ => -1⟩
    bce0 := ⟨fun x => x, fun _ => 1⟩ }

/-- A concrete optimizer update rule used by witness instances. -/
def optW : ℚ → ℚ → ℚ := fun p g => p - g

/-! ## Theorems -/

/-! ### Dictionary lemmas -/

lemma mem_cfgKeys_of_get {c : Cfg} {k : String} (h : cfgGet c k ≠ none) :
    k ∈ cfgKeys c := by
  unfold cfgGet at h
  cases hf : c.find? (fun p => p.1 == k) with
  | none => simp [hf] at h
  | some q =>
    have hp := List.find?_some hf
    have hm : q ∈ c := List.mem_of_find?_eq_some hf
    have hk : q.1 = k := by simpa using hp
    exact hk ▸ List.mem_map.mpr ⟨q, hm, rfl⟩

lemma mem_diffKeys {c₁ c₂ : Cfg} (k : String) :
    k ∈ diffKeys c₁ c₂ ↔ cfgGet c₁ k ≠ cfgGet c₂ k := by
  constructor
  · intro h
    have := (List.mem_filter.mp h).2
    simpa using this
  · intro h
    refine List.mem_filter.mpr ⟨?_, by simpa using h⟩
    unfold unionKeys
    rw [List.mem_dedup, List.mem_append]
    by_cases h₁ : cfgGet c₁ k = none
    · right
      exact mem_cfgKeys_of_get (fun h₂ => h (h₁.trans h₂.symm))
    · left
      exact mem_cfgKeys_of_get h₁

lemma dictEq_iff (c₁ c₂ : Cfg) :
    dictEq c₁ c₂ = true ↔ ∀ k, cfgGet c₁ k = cfgGet c₂ k := by
  unfold dictEq
  rw [List.isEmpty_iff]
  constructor
  · intro h k
    by_contra hk
    have : k ∈ diffKeys c₁ c₂ := (mem_diffKeys k).mpr hk
    simp [h] at this
  · intro h
    rw [List.eq_nil_iff_forall_not_mem]
    intro k hk
    exact (mem_diffKeys k).mp hk (h k)

lemma dictEq_false {c₁ c₂ : Cfg} (h : ∃ k, cfgGet c₁ k ≠ cfgGet c₂ k) :
    dictEq c₁ c₂ = false := by
  rcases h with ⟨k, hk⟩
  cases hb : dictEq c₁ c₂ with
  | false => rfl
  | true => exact absurd ((dictEq_iff c₁ c₂).mp hb k) hk

/-- C1: for every checkpoint whose stored config equals the current config
key-wise, `load_checkpoint` overwrites the generator, discriminator and
both optimizer states with the stored state dicts and returns exactly
`(stored epoch + 1, stored global_step, stored wandb run id)`. -/
theorem load_checkpoint_accepts_matching_config {α : Type}
    (st : CkptState α) (cur : Cfg) (m : Models α)
    (h : ∀ k, cfgGet st.config k = cfgGet cur k) :
    load_checkpoint_state st cur m =
      { models := { generator := st.generator_state_dict
                    discriminator := st.discriminator_state_dict
                    optimizer_g := st.optimizer_g_state_dict
                    optimizer_d := st.optimizer_d_state_dict }
        start_epoch := st.epoch + 1
        global_step := st.global_step
        wandb_run_id := st.wandb_run_id
        reported_diff := [] } := by
  have hd : dictEq st.config cur = true := (dictEq_iff _ _).mpr h
  simp [load_checkpoint_state, hd]

/-- Witness for C1 at a concrete checkpoint and matching config. -/
theorem load_checkpoint_accepts_matching_config_witness :
    load_checkpoint_state
      (α := Nat)
      { epoch := 4, global_step := 40, generator_state_dict := 11
        discriminator_state_dict := 12, optimizer_g_state_dict := 13
        optimizer_d_state_dict := 14, wandb_run_id := some "run7"
        config := [("lr", "0.0002"), ("epochs", "5")] }
      [("lr", "0.0002"), ("epochs", "5")]
      { generator := 1, discriminator := 2, optimizer_g := 3, optimizer_d := 4 } =
      { models := { generator := 11, discriminator := 12
                    optimizer_g := 13, optimizer_d := 14 }
        start_epoch := 5, global_step := 40
        wandb_run_id := some "run7", reported_diff := [] } :=
  load_checkpoint_accepts_matching_config _ _ _ (fun _ => rfl)

/-- C2: for every checkpoint whose stored config differs from the current
config in at least one key, `load_checkpoint` leaves the four modules
untouched, returns the fresh-start triple `(0, 0, None)`, and the
reported keys are exactly the differing ones. -/
theorem load_checkpoint_rejects_mismatched_config {α : Type}
    (st : CkptState α) (cur : Cfg) (m : Models α)
    (h : ∃ k, cfgGet st.config k ≠ cfgGet cur k) :
    load_checkpoint_state st cur m =
      { models := m, start_epoch := 0, global_step := 0
        wandb_run_id := none
        reported_diff := diffKeys st.config cur } ∧
      ∀ k, k ∈ diffKeys st.config cur ↔ cfgGet st.config k ≠ cfgGet cur k := by
  have hd : dictEq st.config cur = false := dictEq_false h
  exact ⟨by simp [load_checkpoint_state, hd], fun k => mem_diffKeys k⟩

/-- Witness for C2 at a concrete checkpoint and a config differing in
the `lr` key. -/
theorem load_checkpoint_rejects_mismatched_config_witness :
    load_checkpoint_state
      (α := Nat)
      { epoch := 4, global_step := 40, generator_state_dict := 11
        discriminator_state_dict := 12, optimizer_g_state_dict := 13
        optimizer_d_state_dict := 14, wandb_run_id := some "run7"
        config := [("lr", "0.0002"), ("epochs", "5")] }
      [("lr", "0.0005"), ("epochs", "5")]
      { generator := 1, discriminator := 2, optimizer_g := 3, optimizer_d := 4 } =
      { models := { generator := 1, discriminator := 2
                    optimizer_g := 3, optimizer_d := 4 }
        start_epoch := 0, global_step := 0, wandb_run_id := none
        reported_diff := diffKeys [("lr", "0.0002"), ("epochs", "5")]
          [("lr", "0.0005"), ("epochs", "5")] } ∧
      ∀ k, k ∈ diffKeys [("lr", "0.0002"), ("epochs", "5")]
          [("lr", "0.0005"), ("epochs", "5")] ↔
        cfgGet [("lr", "0.0002"), ("epochs", "5")] k ≠
          cfgGet [("lr", "0.0005"), ("epochs", "5")] k :=
  load_checkpoint_rejects_mismatched_config _ _ _ ⟨"lr", by decide⟩

/-- C3: the latest-checkpoint selection does NOT pick the maximum epoch
number: it maximizes the last underscore-separated field of the
filename, which for `save_checkpoint`'s scheme
`ckpt_epoch_{epoch}_{Ymd}_{HMS}.pth` is the time-of-day half of the
timestamp. Over an epoch-2 checkpoint saved at 23:59:59 and an epoch-5
checkpoint saved the next day at 00:00:10, the scan selects the epoch-2
file. Over an empty listing it reports none found. This contradicts the
code's own comment at line 162, "Determine the latest checkpoint
(highest epoch number)". -/
theorem latest_selects_by_timestamp_field :
    ckptFilename 2 "20250101_235959" = "ckpt_epoch_2_20250101_235959.pth" ∧
    ckptFilename 5 "20250102_000010" = "ckpt_epoch_5_20250102_000010.pth" ∧
    select_latest ["ckpt_epoch_2_20250101_235959.pth",
      "ckpt_epoch_5_20250102_000010.pth"] =
      .ok (some "ckpt_epoch_2_20250101_235959.pth") ∧
    select_latest [] = .ok none :=
  ⟨rfl, rfl, by rfl, rfl⟩

/-- Counterexample to C4: a file matching the `ckpt_epoch_*.pth` pattern
whose epoch field is not an integer is not skipped — the scan raises an
uncaught `ValueError` from `int(...)` instead of completing. -/
theorem malformed_ckpt_name_raises :
    isCkptFile "ckpt_epoch_abc.pth" = true ∧
    select_latest ["ckpt_epoch_abc.pth"] =
      .error "invalid literal for int: abc" :=
  ⟨rfl, by rfl⟩

lemma pyMaxFrom_error {f e : String} (hbad : ckptKey f = .error e) :
    ∀ (l : List String) (best : String) (bestKey : Int), f ∈ l →
      ∃ m, pyMaxFrom best bestKey l = .error m := by
  intro l
  induction l with
  | nil => intro best bestKey hm; exact absurd hm (List.not_mem_nil f)
  | cons x xs ih =>
    intro best bestKey hm
    cases hx : ckptKey x with
    | error m => exact ⟨m, by simp [pyMaxFrom, hx]⟩
    | ok k =>
      have hf : f ∈ xs := by
        rcases List.mem_cons.mp hm with rfl | hf
        · rw [hbad] at hx; cases hx
        · exact hf
      rcases ih (if bestKey < k then x else best)
          (if bestKey < k then k else bestKey) hf with ⟨m, hm'⟩
      refine ⟨m, ?_⟩
      simp only [pyMaxFrom, hx]
      by_cases hlt : bestKey < k
      · simpa [hlt] using hm'
      · simpa [hlt] using hm'

lemma pyMaxCkpt_error {f e : String} (hbad : ckptKey f = .error e)
    {l : List String} (hm : f ∈ l) : ∃ m, pyMaxCkpt l = .error m := by
  cases l with
  | nil => exact absurd hm (List.not_mem_nil f)
  | cons x xs =>
    cases hx : ckptKey x with
    | error m => exact ⟨m, by simp [pyMaxCkpt, hx]⟩
    | ok k =>
      have hf : f ∈ xs := by
        rcases List.mem_cons.mp hm with rfl | hf
        · rw [hbad] at hx; cases hx
        · exact hf
      rcases pyMaxFrom_error hbad xs x k hf with ⟨m, hm'⟩
      exact ⟨m, by simp [pyMaxCkpt, hx, hm']⟩

/-- C4 as the code actually behaves: whenever a directory listing
contains a file that matches the `ckpt_epoch_*.pth` pattern but whose
final underscore-separated field (before the first dot) does not parse
as an integer, the scan of `load_checkpoint` raises; the malformed
entry is fatal, not skipped. -/
theorem malformed_ckpt_name_fatal_to_scan (files : List String) (f : String)
    (hmem : f ∈ files) (hck : isCkptFile f = true)
    (hbad : ∃ e, ckptKey f = .error e) :
    ∃ m, select_latest files = .error m := by
  rcases hbad with ⟨e, hbad⟩
  have hfil : f ∈ files.filter isCkptFile := List.mem_filter.mpr ⟨hmem, hck⟩
  rcases pyMaxCkpt_error hbad hfil with ⟨m, hm⟩
  refine ⟨m, ?_⟩
  unfold select_latest
  have hne : (files.filter isCkptFile).isEmpty = false := by
    cases hl : files.filter isCkptFile with
    | nil => rw [hl] at hfil; cases hfil
    | cons a as => rfl
  simp [hne, hm, Except.map]

/-- Witness for the amended C4: a listing with one malformed and one
well-formed checkpoint name makes the scan raise. -/
theorem malformed_ckpt_name_fatal_to_scan_witness :
    ∃ m, select_latest ["ckpt_epoch_abc.pth",
      "ckpt_epoch_1_20250101_100000.pth"] = .error m :=
  malformed_ckpt_name_fatal_to_scan _ "ckpt_epoch_abc.pth"
    (by decide) rfl ⟨"invalid literal for int: abc", by rfl⟩

/-! ### Training loop bookkeeping -/

lemma epoch_fold_counts (env : Env) (optG optD : ℚ → ℚ → ℚ) :
    ∀ (bs : List Batch) (a : EpochAcc),
      (bs.foldl (epoch_step env optG optD) a).n_batches =
        a.n_batches + bs.length ∧
      (bs.foldl (epoch_step env optG optD) a).global_step =
        a.global_step + bs.length := by
  intro bs
  induction bs with
  | nil => intro a; simp
  | cons b bs ih =>
    intro a
    rw [List.foldl_cons]
    rcases ih (epoch_step env optG optD a b) with ⟨h₁, h₂⟩
    rw [h₁, h₂]
    simp [epoch_step]
    omega

lemma train_epoch_ok (env : Env) (optG optD : ℚ → ℚ → ℚ) (s : TrainState)
    (gs : ℕ) (bs : List Batch) (h : bs ≠ []) :
    ∃ s' ag ad, train_epoch env optG optD s gs bs =
      .ok (s', ag, ad, gs + bs.length) := by
  rcases epoch_fold_counts env optG optD bs
      { s := s, total_g_loss := 0, total_d_loss := 0, n_batches := 0,
        global_step := gs } with ⟨h₁, h₂⟩
  have hlen : ¬ bs.length = 0 := fun hl => h (List.length_eq_zero.mp hl)
  unfold train_epoch
  simp only [h₁, h₂, Nat.zero_add]
  rw [if_neg hlen]
  exact ⟨_, _, _, rfl⟩

/-- C5: `global_step` goes up by exactly 1 per batch, whatever the
batch's size: across any sequence of (non-empty) epochs processing N
batches in total, the final `global_step` equals the starting value
plus N — in particular it never decreases and never resets when the
starting value was resumed from a checkpoint. -/
theorem global_step_adds_batches (env : Env) (optG optD : ℚ → ℚ → ℚ) :
    ∀ (epochs : List (List Batch)) (s : TrainState) (gs : ℕ),
      (∀ e ∈ epochs, e ≠ []) →
      ∃ s', runEpochs env optG optD s gs epochs =
          .ok (s', gs + (epochs.map List.length).sum) ∧
        gs ≤ gs + (epochs.map List.length).sum := by
  intro epochs
  induction epochs with
  | nil => intro s gs _; exact ⟨s, by simp [runEpochs], Nat.le_refl gs⟩
  | cons e es ih =>
    intro s gs h
    rcases train_epoch_ok env optG optD s gs e
        (h e (List.mem_cons_self e es)) with ⟨s₁, ag, ad, hok⟩
    rcases ih s₁ (gs + e.length)
        (fun e' he' => h e' (List.mem_cons_of_mem e he')) with ⟨s', hrun, _⟩
    refine ⟨s', ?_, Nat.le_add_right _ _⟩
    simp [runEpochs, hok, hrun, Nat.add_assoc]

/-- Witness for C5: two epochs of 1 and 2 batches (of sizes 4), resumed
from `global_step = 7`, end at `7 + 3`. -/
theorem global_step_adds_batches_witness :
    ∃ s', runEpochs envW optW optW ⟨0, 0⟩ 7
        ([[⟨1, 2, 4⟩], [⟨1, 2, 4⟩, ⟨3, 5, 4⟩]] : List (List Batch)) =
      .ok (s', 7 + (([[⟨1, 2, 4⟩], [⟨1, 2, 4⟩, ⟨3, 5, 4⟩]] :
        List (List Batch)).map List.length).sum) ∧
      7 ≤ 7 + (([[⟨1, 2, 4⟩], [⟨1, 2, 4⟩, ⟨3, 5, 4⟩]] :
        List (List Batch)).map List.length).sum :=
  global_step_adds_batches envW optW optW _ _ 7 (by decide)

/-- C6: the generator step changes only the generator parameters and the
discriminator step changes only the discriminator parameters; the
discriminator's fake-batch term is built on the detached synthetic
batch, so the gradient of `fake_loss` — and of the whole `d_loss` —
with respect to the generator parameters is zero: no gradient flows
back into the generator during the discriminator's own update. -/
theorem gradient_isolation (env : Env) (optG optD : ℚ → ℚ → ℚ) (b : Batch)
    (s : TrainState) (g0 g d : ℚ) :
    (generator_phase env optG b s).1.d = s.d ∧
    (discriminator_phase env optD b g0 s).1.g = s.g ∧
    gradG env g0 g d b fake_loss = 0 ∧
    gradG env g0 g d b d_loss = 0 := by
  refine ⟨rfl, rfl, ?_, ?_⟩
  · simp [fake_loss, gen_imgs, gradG]
  · simp [d_loss, real_loss, fake_loss, gen_imgs, gradG]

/-- C7: the discriminator loss is exactly the unweighted arithmetic mean
`(real_loss + fake_loss) / 2`, where `real_loss` is the cross-entropy
of the discriminator's score on the real batch against the all-ones
target and `fake_loss` is the cross-entropy of its score on the
detached synthetic batch (the generator output captured at the
pre-update parameter `g0`) against the all-zeros target. -/
theorem d_loss_is_mean_of_real_and_fake (env : Env) (optD : ℚ → ℚ → ℚ)
    (b : Batch) (s : TrainState) (g0 g d : ℚ) :
    evalE env g0 g d b d_loss =
      (evalE env g0 g d b real_loss + evalE env g0 g d b fake_loss) / 2 ∧
    evalE env g0 g d b real_loss = env.bce1.val (env.D.val d b.imgs) ∧
    evalE env g0 g d b fake_loss =
      env.bce0.val (env.D.val d (env.G.val g0 b.noise)) ∧
    (discriminator_phase env optD b g0 s).2 =
      (evalE env g0 s.g s.d b real_loss + evalE env g0 s.g s.d b fake_loss) / 2 :=
  ⟨rfl, rfl, rfl, rfl⟩

/-- C10: with an empty dataloader, `train_epoch` reaches the end-of-epoch
averages with `n_batches = 0` and fails with a `ZeroDivisionError`
instead of returning; with at least one batch it always returns. -/
theorem train_epoch_requires_nonempty_dataloader (env : Env)
    (optG optD : ℚ → ℚ → ℚ) (s : TrainState) (gs : ℕ) :
    train_epoch env optG optD s gs [] =
      .error "ZeroDivisionError: float division by zero" ∧
    ∀ bs : List Batch, bs ≠ [] →
      ∃ r, train_epoch env optG optD s gs bs = .ok r := by
  refine ⟨rfl, fun bs h => ?_⟩
  rcases train_epoch_ok env optG optD s gs bs h with ⟨s', ag, ad, hok⟩
  exact ⟨_, hok⟩

/-- Witness for C10: a singleton dataloader returns normally. -/
theorem train_epoch_requires_nonempty_dataloader_witness :
    ∃ r, train_epoch envW optW optW ⟨0, 0⟩ 0 [⟨1, 2, 4⟩] = .ok r :=
  (train_epoch_requires_nonempty_dataloader envW optW optW ⟨0, 0⟩ 0).2
    [⟨1, 2, 4⟩] (by decide)

/-! ### Fingerprint and folder resolution -/

lemma splitOnChar_of_not_mem {sep : Char} :
    ∀ {a : List Char}, sep ∉ a → splitOnChar sep a = [a] := by
  intro a
  induction a with
  | nil => intro _; rfl
  | cons c cs ih =>
    intro hna
    have hc : ¬ c = sep := fun he => hna (he ▸ List.mem_cons_self c cs)
    have hcs : sep ∉ cs := fun hm => hna (List.mem_cons_of_mem c hm)
    simp [splitOnChar, hc, ih hcs]

lemma splitOnChar_append {sep : Char} :
    ∀ {a : List Char} (rest : List Char), sep ∉ a →
      splitOnChar sep (a ++ sep :: rest) = a :: splitOnChar sep rest := by
  intro a
  induction a with
  | nil => intro rest _; simp [splitOnChar]
  | cons c cs ih =>
    intro rest hna
    have hc : ¬ c = sep := fun he => hna (he ▸ List.mem_cons_self c cs)
    have hcs : sep ∉ cs := fun hm => hna (List.mem_cons_of_mem c hm)
    simp [splitOnChar, hc, ih rest hcs]

lemma folder_name_assoc (h : List Char → List Char) (c : ConfigKeys) :
    folder_name h c =
      "dcgan".data ++ '_' :: (("lr".data ++ c.lr) ++
        '_' :: (("bs".data ++ c.batch_size) ++
          '_' :: (("latent".data ++ c.latent_dim) ++
            '_' :: (("ngf".data ++ c.ngf) ++
              '_' :: (("ndf".data ++ c.ndf) ++
                '_' :: h (key_params c)))))) := by
  simp only [folder_name, List.append_assoc, List.cons_append,
    List.nil_append]

lemma not_mem_append_lit {lit v : List Char} (hl : '_' ∉ lit) (hv : '_' ∉ v) :
    '_' ∉ lit ++ v := by
  intro hm
  rcases List.mem_append.mp hm with hm | hm
  · exact hl hm
  · exact hv hm

lemma folder_name_split (h : List Char → List Char) (c : ConfigKeys)
    (w : fpWF c) :
    splitOnChar '_' (folder_name h c) =
      "dcgan".data :: ("lr".data ++ c.lr) :: ("bs".data ++ c.batch_size) ::
        ("latent".data ++ c.latent_dim) :: ("ngf".data ++ c.ngf) ::
        ("ndf".data ++ c.ndf) :: splitOnChar '_' (h (key_params c)) := by
  obtain ⟨w₁, w₂, w₃, w₄, w₅⟩ := w
  rw [folder_name_assoc]
  rw [splitOnChar_append _ (by decide)]
  rw [splitOnChar_append _ (not_mem_append_lit (by decide) w₁)]
  rw [splitOnChar_append _ (not_mem_append_lit (by decide) w₂)]
  rw [splitOnChar_append _ (not_mem_append_lit (by decide) w₃)]
  rw [splitOnChar_append _ (not_mem_append_lit (by decide) w₄)]
  rw [splitOnChar_append _ (not_mem_append_lit (by decide) w₅)]

/-- C8: the checkpoint folder name is a pure function of the five
fingerprint hyperparameters `(lr, batch_size, latent_dim, ngf, ndf)` —
equal five-tuples give the identical folder name for any digest
function `h`, and (for underscore-free `str()` renderings) a change to
any of the five keys changes the folder name, whatever `h` returns. -/
theorem run_fingerprint_of_five_keys (h : List Char → List Char)
    (c₁ c₂ : ConfigKeys) (w₁ : fpWF c₁) (w₂ : fpWF c₂) :
    (fpEq c₁ c₂ → folder_name h c₁ = folder_name h c₂) ∧
    (¬ fpEq c₁ c₂ → folder_name h c₁ ≠ folder_name h c₂) := by
  constructor
  · rintro ⟨e₁, e₂, e₃, e₄, e₅⟩
    unfold folder_name key_params
    rw [e₁, e₂, e₃, e₄, e₅]
  · intro hne heq
    have hs := congrArg (splitOnChar '_') heq
    rw [folder_name_split h c₁ w₁, folder_name_split h c₂ w₂] at hs
    injection hs with h₀ hs
    injection hs with h₁ hs
    injection hs with h₂ hs
    injection hs with h₃ hs
    injection hs with h₄ hs
    injection hs with h₅ hs
    exact hne ⟨List.append_cancel_left h₁, List.append_cancel_left h₂,
      List.append_cancel_left h₃, List.append_cancel_left h₄,
      List.append_cancel_left h₅⟩

/-- Witness for C8: same five keys (different base directory) give the
same folder name; changing `lr` changes it. -/
theorem run_fingerprint_of_five_keys_witness :
    (folder_name (fun _ => "0a1b2c3d".data)
        { lr := "0.0002".data, batch_size := "128".data,
          latent_dim := "100".data, ngf := "64".data, ndf := "64".data,
          checkpoint_dir := "checkpoints".data } =
      folder_name (fun _ => "0a1b2c3d".data)
        { lr := "0.0002".data, batch_size := "128".data,
          latent_dim := "100".data, ngf := "64".data, ndf := "64".data,
          checkpoint_dir := "ckpts".data }) ∧
    folder_name (fun _ => "0a1b2c3d".data)
        { lr := "0.0002".data, batch_size := "128".data,
          latent_dim := "100".data, ngf := "64".data, ndf := "64".data,
          checkpoint_dir := "checkpoints".data } ≠
      folder_name (fun _ => "0a1b2c3d".data)
        { lr := "0.0005".data, batch_size := "128".data,
          latent_dim := "100".data, ngf := "64".data, ndf := "64".data,
          checkpoint_dir := "checkpoints".data } :=
  ⟨(run_fingerprint_of_five_keys (fun _ => "0a1b2c3d".data) _ _
      (by decide) (by decide)).1 (by decide),
    (run_fingerprint_of_five_keys (fun _ => "0a1b2c3d".data) _ _
      (by decide) (by decide)).2 (by decide)⟩

lemma makedirs_exist_ok (p : List Char) (fs : FS) :
    makedirs p true fs = .ok (if p ∈ fs then fs else p :: fs) := by
  unfold makedirs
  split <;> simp

lemma gcf_eq (h : List Char → List Char) (c : ConfigKeys) (fs : FS) :
    generate_checkpoint_folder h c fs = .ok (gcfFS h c fs, folder_path h c) := by
  unfold generate_checkpoint_folder gcfFS
  simp only [makedirs_exist_ok]

/-- C9: resolving the checkpoint folder twice with the same config never
raises — `os.makedirs` is called with `exist_ok=True`, so a
pre-existing directory is fine — and both calls return the same path. -/
theorem resolve_location_idempotent (h : List Char → List Char)
    (c : ConfigKeys) (fs : FS) :
    ∃ fs₁, generate_checkpoint_folder h c fs = .ok (fs₁, folder_path h c) ∧
      ∃ fs₂, generate_checkpoint_folder h c fs₁ = .ok (fs₂, folder_path h c) :=
  ⟨gcfFS h c fs, gcf_eq h c fs, gcfFS h c (gcfFS h c fs), gcf_eq h c _⟩

end DCGAN
